import Mathlib

/-!
Verification of the voice-interaction turn-taking core of the
Exam-Voice-Assitance repository.

The development shallowly embeds the relevant JavaScript source:

* `src/src/services/speechService.js` (class `SpeechService`) — modelled as a
  state machine `SpeechState` with an event-step function `step`.  JavaScript
  is single threaded, so each `async` method is split into the atomic segments
  between its `await`/`setTimeout` suspension points; suspended continuations
  are kept in the `pending` list and scheduled by `Act.runPending`.  Engine
  callbacks (TTS `onDone`/`onStopped`/`onError`, the recognition `result` and
  `error` listeners, the armed silence `setTimeout`) are separate events.
  Utterance texts are modelled as `Nat`, with `0` standing for an
  empty/whitespace-only string (the `!text || text.trim() === ''` guard).
* `src/src/screens/student/ExamPage.js` (`handleVoiceCommand`,
  `submitExamAnswers`, the countdown `useEffect`) and
  `src/src/screens/student/HomePage.js` (`handleVoiceCommand`) — modelled as
  pure functions from an `ExamSt` and a transcript to a new state plus a list
  of emitted effects.
* The option-letter regular expressions of `ExamPage.handleVoiceCommand`
  (lines 720–754) — modelled character by character, with JavaScript regex
  word boundaries and whitespace classes made explicit.
-/

namespace SpeechSvc

/-- Error kinds surfaced through `onRecognitionErrorCallback`. -/
inductive ErrKind where
  | silence_timeout
  | recognition_error
  | unknown
deriving DecidableEq, Repr

/-- Observable effects emitted by the speech service: calls into the TTS/STT
engines, invocations of the registered callbacks, and resolution/rejection of
the promise returned by a non-queued `speak()` call. -/
inductive Obs where
  | engineSpeak (t : Nat)   -- `Speech.speak(text, ...)` issued
  | engineStopTTS           -- `Speech.stop()` issued
  | ttsDoneEv (t : Nat)     -- engine reported the utterance finished
  | recogStart              -- `ExpoSpeechRecognitionModule.start(...)` issued
  | recogStop               -- `ExpoSpeechRecognitionModule.stop()` issued
  | speechEndCb             -- `onSpeechEndCallback()` invoked
  | errorCb (k : ErrKind)   -- `onRecognitionErrorCallback({type: k, ...})` invoked
  | resultCb (t : Nat)      -- `onRecognitionResultCallback(transcript)` invoked
  | resolveSpeak            -- the pending `speak()` promise resolved
  | rejectSpeak             -- the pending `speak()` promise rejected
deriving DecidableEq, Repr

/-- Continuations parked at an `await new Promise(setTimeout ...)` or at the
post-`onDone` 300 ms `setTimeout`. -/
inductive PendingTask where
  /-- `speak()`: the code after the 500 ms wait that follows stopping an
  active listener (speechService.js line 67). -/
  | speakAfterDelay (t : Nat)
  /-- the 300 ms `setTimeout` scheduled inside `onDone`
  (speechService.js line 83). -/
  | drainTimer
  /-- `startListening()`: the code after the 800 ms wait that follows
  `stopSpeaking()` (speechService.js line 143). -/
  | listenAfterDelay
deriving DecidableEq, Repr

/-- The mutable fields of the `SpeechService` singleton, the relevant engine
state, parked continuations and the observation trace.  Booleans `hasEndCb`,
`hasResultCb`, `hasErrorCb` record whether the corresponding callback is
registered (non-null). -/
structure SpeechState where
  isSpeaking : Bool
  isListening : Bool
  speechQueue : List Nat
  silenceArmed : Bool          -- `silenceTimeout` is set and has not fired/cleared
  currentRecognition : Bool
  ttsCurrent : Option Nat      -- utterance the TTS engine is currently playing
  sttRunning : Bool            -- the recognition engine is running
  stopPending : Bool           -- `Speech.stop()` issued, `onStopped` not yet fired
  hasEndCb : Bool
  hasResultCb : Bool
  hasErrorCb : Bool
  pending : List PendingTask
  trace : List Obs
deriving DecidableEq, Repr

/-- The constructor state (speechService.js lines 12–25): everything off,
queue empty, no callbacks registered. -/
def initState : SpeechState :=
  { isSpeaking := false, isListening := false, speechQueue := []
    silenceArmed := false, currentRecognition := false, ttsCurrent := none
    sttRunning := false, stopPending := false
    hasEndCb := false, hasResultCb := false, hasErrorCb := false
    pending := [], trace := [] }

/-- A state in which the screen has registered all three callbacks
(`setOnSpeechEnd`, `setOnRecognitionResult`, `setOnRecognitionError`). -/
def readyState : SpeechState :=
  { initState with hasEndCb := true, hasResultCb := true, hasErrorCb := true }

/-- `stopListening()` (speechService.js lines 329–367).  The body contains no
timer waits, so it is a single atomic segment: clear the silence timer, stop
the recognition engine and drop the subscriptions when one is active, and
unconditionally clear `isListening`. -/
def stopListeningFn (s : SpeechState) : SpeechState :=
  let s1 := { s with silenceArmed := false }
  let s2 :=
    if s1.currentRecognition then
      { s1 with sttRunning := false, currentRecognition := false
                trace := s1.trace ++ [Obs.recogStop] }
    else s1
  { s2 with isListening := false }

/-- `stopSpeaking()` (speechService.js lines 119–125): when speaking, call
`Speech.stop()` (the engine will later fire `onStopped`, modelled by
`stopPending`), clear `isSpeaking` and discard the whole speech queue. -/
def stopSpeakingFn (s : SpeechState) : SpeechState :=
  if s.isSpeaking then
    { s with ttsCurrent := none, stopPending := true, isSpeaking := false
             speechQueue := []
             trace := s.trace ++ [Obs.engineStopTTS] }
  else s

/-- Entering the speaking phase of `speak()` (speechService.js lines 70–74):
set `isSpeaking` and hand the text to `Speech.speak`.  The code performs no
re-check of `isSpeaking` at this point. -/
def beginSpeak (s : SpeechState) (t : Nat) : SpeechState :=
  { s with isSpeaking := true, ttsCurrent := some t
           trace := s.trace ++ [Obs.engineSpeak t] }

/-- Whether the promise returned by a `speak()` call is already resolved when
the call returns (`.resolvedNow`) or only settles later through the engine
callbacks (`.pendingLater`). -/
inductive SpeakRet where
  | resolvedNow
  | pendingLater
deriving DecidableEq, Repr

/-- The entry segment of `speak(text)` (speechService.js lines 54–74), up to
its first suspension point.  Empty text returns at once; while already
speaking the text is only pushed onto `speechQueue` and the `async` method
returns — hence the returned promise resolves immediately with `undefined`;
while listening, `stopListening()` runs and the continuation is parked for
the 500 ms delay; otherwise speaking begins directly. -/
def speakEntry (s : SpeechState) (t : Nat) : SpeechState × SpeakRet :=
  if t = 0 then (s, SpeakRet.resolvedNow)
  else if s.isSpeaking then
    ({ s with speechQueue := s.speechQueue ++ [t] }, SpeakRet.resolvedNow)
  else if s.isListening then
    let s1 := stopListeningFn s
    ({ s1 with pending := s1.pending ++ [PendingTask.speakAfterDelay t] },
     SpeakRet.pendingLater)
  else (beginSpeak s t, SpeakRet.pendingLater)

/-- The firing of the 300 ms `setTimeout` scheduled by `onDone`
(speechService.js lines 83–95): drain the next queued request through a
recursive `speak()` call (which chains the original promise), or invoke the
speech-end callback and resolve. -/
def drainStep (s : SpeechState) : SpeechState :=
  match s.speechQueue with
  | next :: rest => (speakEntry { s with speechQueue := rest } next).1
  | [] =>
    { s with trace := s.trace
        ++ (if s.hasEndCb then [Obs.speechEndCb] else [])
        ++ [Obs.resolveSpeak] }

/-- The body of `startListening()` after any delay (speechService.js lines
146–324).  `startFails` selects the branch in which
`ExpoSpeechRecognitionModule.start` throws: the `startError` handler removes
the fresh subscriptions, clears `isListening` and rethrows; the `apiError`
handler clears `isListening`, reports `{type: 'unknown'}` and rethrows; the
outermost catch clears `isListening`, reports the raw error again and
swallows it, so the method itself never rejects.  Note that the armed silence
timer is not cleared on this failure path.  On success the silence timer is
(re)armed and recognition starts. -/
def listenBody (s : SpeechState) (startFails : Bool) : SpeechState :=
  let s1 := if s.currentRecognition then stopListeningFn s else s
  let s2 := { s1 with isListening := true, silenceArmed := true }
  if startFails then
    { s2 with isListening := false
              trace := s2.trace
                ++ (if s2.hasErrorCb then [Obs.errorCb ErrKind.unknown] else [])
                ++ (if s2.hasErrorCb then [Obs.errorCb ErrKind.unknown] else []) }
  else
    { s2 with sttRunning := true, currentRecognition := true
              trace := s2.trace ++ [Obs.recogStart] }

/-- The entry segment of `startListening()` (speechService.js lines 131–144):
no-op while already listening; while speaking, `stopSpeaking()` runs and the
continuation is parked for the 800 ms delay; otherwise the body runs
directly. -/
def startListeningEntry (s : SpeechState) (startFails : Bool) : SpeechState :=
  if s.isListening then s
  else if s.isSpeaking then
    let s1 := stopSpeakingFn s
    { s1 with pending := s1.pending ++ [PendingTask.listenAfterDelay] }
  else listenBody s startFails

/-- Every event the single-threaded scheduler can dispatch: a public call by
the application, the resumption of a parked continuation (the elapsing of its
timer), or an engine callback. -/
inductive Act where
  | callSpeak (t : Nat)
  | callStartListening (startFails : Bool)
  | callStopListening
  | callStopSpeaking
  | runPending (i : Nat) (startFails : Bool)
  | ttsDone
  | ttsStopped
  | ttsError
  | silenceFire
  | recogFinal (t : Nat)
  | recogError
deriving DecidableEq, Repr

/-- Run a parked continuation. -/
def runTask (s : SpeechState) (task : PendingTask) (startFails : Bool) :
    SpeechState :=
  match task with
  | PendingTask.speakAfterDelay t => beginSpeak s t
  | PendingTask.drainTimer => drainStep s
  | PendingTask.listenAfterDelay => listenBody s startFails

/-- One scheduler step.  Events whose enabling condition does not hold
(e.g. a TTS callback with no current utterance) leave the state unchanged. -/
def step (s : SpeechState) : Act → SpeechState
  | Act.callSpeak t => (speakEntry s t).1
  | Act.callStartListening f => startListeningEntry s f
  | Act.callStopListening => stopListeningFn s
  | Act.callStopSpeaking => stopSpeakingFn s
  | Act.runPending i f =>
    match s.pending.get? i with
    | none => s
    | some task => runTask { s with pending := s.pending.eraseIdx i } task f
  | Act.ttsDone =>
    -- `onDone` (lines 79–96): clear `isSpeaking`, schedule the 300 ms drain.
    match s.ttsCurrent with
    | none => s
    | some t =>
      { s with isSpeaking := false, ttsCurrent := none
               pending := s.pending ++ [PendingTask.drainTimer]
               trace := s.trace ++ [Obs.ttsDoneEv t] }
  | Act.ttsStopped =>
    -- `onStopped` (lines 97–103): clear `isSpeaking`, fire the speech-end
    -- callback, resolve the original promise.
    if s.stopPending then
      { s with stopPending := false, isSpeaking := false
               trace := s.trace
                 ++ (if s.hasEndCb then [Obs.speechEndCb] else [])
                 ++ [Obs.resolveSpeak] }
    else s
  | Act.ttsError =>
    -- `onError` (lines 104–111): clear `isSpeaking`, fire the speech-end
    -- callback, reject the promise (an error value for the awaiting caller).
    match s.ttsCurrent with
    | none => s
    | some _ =>
      { s with isSpeaking := false, ttsCurrent := none
               trace := s.trace
                 ++ (if s.hasEndCb then [Obs.speechEndCb] else [])
                 ++ [Obs.rejectSpeak] }
  | Act.silenceFire =>
    -- the silence `setTimeout` callback (lines 160–167): it only reports the
    -- error; it neither clears `isListening` nor stops recognition.
    if s.silenceArmed then
      { s with silenceArmed := false
               trace := s.trace
                 ++ (if s.isListening && s.hasErrorCb
                     then [Obs.errorCb ErrKind.silence_timeout] else []) }
    else s
  | Act.recogFinal t =>
    -- the `result` listener for a final transcript (lines 199–256): clear the
    -- silence timer; for a non-empty transcript with a registered callback,
    -- clear `isListening` and deliver the transcript.
    if s.currentRecognition then
      if t ≠ 0 && s.hasResultCb then
        { s with silenceArmed := false, isListening := false
                 trace := s.trace ++ [Obs.resultCb t] }
      else { s with silenceArmed := false }
    else s
  | Act.recogError =>
    -- the `error` listener (lines 258–272): clear the silence timer, clear
    -- `isListening`, report the error.
    if s.currentRecognition then
      { s with silenceArmed := false, isListening := false
               trace := s.trace
                 ++ (if s.hasErrorCb then [Obs.errorCb ErrKind.recognition_error]
                     else []) }
    else s

/-- Run a whole schedule. -/
def runActs (s : SpeechState) (acts : List Act) : SpeechState :=
  acts.foldl step s

end SpeechSvc

namespace Interp

/-!
Character-level model of the option-letter extraction in
`ExamPage.handleVoiceCommand` (ExamPage.js lines 718–754).  The JavaScript
code runs, in order:

1. `command.match(/\b(?:select|choose|pick)\s+(?:option\s+)?([a-d])\s*$/i)`,
2. `command.match(/\b(?:option\s+)?([a-d])\s*$/i)`,
3. `command.slice(-15).match(/\b(?:option\s+)?([a-d])\b/i)`,
4. `[...command.matchAll(/\b(?:option\s+)?([a-d])\b/gi)]`, last element,

uppercasing the captured letter of the first stage that matches.  `command`
is always `transcript.toLowerCase().trim()`, so the matchers below are stated
for lower-case input.  `\b`, `\s` and `\w` are spelled out explicitly.
-/

/-- JavaScript `\w`: `[A-Za-z0-9_]`. -/
def isWordChar (c : Char) : Bool := c.isAlpha || c.isDigit || c = '_'

/-- JavaScript `\s` on the ASCII range: space, tab, LF, VT, FF, CR. -/
def isJsSpace (c : Char) : Bool :=
  c = ' ' || c = '\t' || c = '\n' || c = '\x0b' || c = '\x0c' || c = '\r'

/-- The character class `[a-d]` (input is lower-cased before matching). -/
def isLetterAD (c : Char) : Bool := c = 'a' || c = 'b' || c = 'c' || c = 'd'

/-- `\b` between an upcoming word character and the character before it
(given reversed): holds at the start of the string or after a non-word
character. -/
def boundaryRev : List Char → Bool
  | [] => true
  | c :: _ => !isWordChar c

/-- On a reversed string, strip the literal word `w` (i.e. test that the
string ends with `w`) and return what precedes it. -/
def stripRevLit (w : String) (l : List Char) : Option (List Char) :=
  let wr := w.data.reverse
  if l.take wr.length = wr then some (l.drop wr.length) else none

/-- `\b(select|choose|pick)` read backwards: the reversed remainder ends with
one of the verbs, preceded by a word boundary. -/
def verbWithBoundary (l : List Char) : Bool :=
  match stripRevLit "select" l with
  | some m => boundaryRev m
  | none =>
    match stripRevLit "choose" l with
    | some m => boundaryRev m
    | none =>
      match stripRevLit "pick" l with
      | some m => boundaryRev m
      | none => false

/-- `/\b(?:select|choose|pick)\s+(?:option\s+)?([a-d])\s*$/`, evaluated from
the end of the string: after discarding trailing whitespace the last
character must be an `[a-d]` letter preceded by at least one whitespace
character, before which stands either `option` (itself preceded by
whitespace and a boundary-anchored verb) or a boundary-anchored verb
directly.  In every successful parse the captured group is that final
letter. -/
def matchEndPattern1 (cs : List Char) : Option Char :=
  let rs := cs.reverse.dropWhile isJsSpace
  match rs with
  | [] => none
  | c :: rest =>
    if isLetterAD c then
      match rest with
      | [] => none
      | w :: _ =>
        if isJsSpace w then
          let r1 := rest.dropWhile isJsSpace
          let withOption : Bool :=
            match stripRevLit "option" r1 with
            | some r2 =>
              match r2 with
              | [] => false
              | w2 :: _ => isJsSpace w2 && verbWithBoundary (r2.dropWhile isJsSpace)
            | none => false
          if withOption || verbWithBoundary r1 then some c else none
        else none
    else none

/-- `/\b(?:option\s+)?([a-d])\s*$/`, evaluated from the end of the string.
The optional `option\s+` group is redundant for match existence: whenever it
participates, the captured letter is preceded by whitespace, so the bare
boundary-anchored `([a-d])\s*$` alternative matches with the same capture.
Hence: the last non-whitespace character is an `[a-d]` letter standing at a
word boundary. -/
def matchEndPattern2 (cs : List Char) : Option Char :=
  match cs.reverse.dropWhile isJsSpace with
  | [] => none
  | c :: rest => if isLetterAD c && boundaryRev rest then some c else none

/-- A word boundary holds before the current position (forward scan) when
there is no previous character or the previous character is not a word
character (both regex alternatives begin with a word character). -/
def boundaryAt (prev : Option Char) : Bool :=
  match prev with
  | none => true
  | some p => !isWordChar p

/-- `\b` after a captured letter: end of input or a non-word character. -/
def boundaryAfter : List Char → Bool
  | [] => true
  | c :: _ => !isWordChar c

/-- Strip the literal word `w` from the front. -/
def stripLit (w : String) (l : List Char) : Option (List Char) :=
  if l.take w.data.length = w.data then some (l.drop w.data.length) else none

/-- Attempt `(?:option\s+)?([a-d])\b` at the current position (the preceding
`\b` having been checked by the caller).  The regex engine prefers the
`option\s+` branch; if that fails it matches a bare `[a-d]` letter.  Returns
the captured letter. -/
def tryMatchAt (l : List Char) : Option Char :=
  let viaOption : Option Char :=
    match stripLit "option" l with
    | none => none
    | some m =>
      match m with
      | [] => none
      | w :: _ =>
        if isJsSpace w then
          match m.dropWhile isJsSpace with
          | [] => none
          | c :: rest2 => if isLetterAD c && boundaryAfter rest2 then some c else none
        else none
  match viaOption with
  | some c => some c
  | none =>
    match l with
    | [] => none
    | c :: rest => if isLetterAD c && boundaryAfter rest then some c else none

/-- Leftmost match of `/\b(?:option\s+)?([a-d])\b/` — `String.match` on the
15-character tail returns the first match, scanning positions left to
right. -/
def scanFirst : Option Char → List Char → Option Char
  | _, [] => none
  | prev, c :: rest =>
    if boundaryAt prev then
      match tryMatchAt (c :: rest) with
      | some letter => some letter
      | none => scanFirst (some c) rest
    else scanFirst (some c) rest

/-- All captures of `/\b(?:option\s+)?([a-d])\b/g`, scanning every boundary
position.  `matchAll` itself resumes after each match (non-overlapping), but
for this pattern any match beginning inside another match is a bare-letter
match of the same trailing capture — the interior of the literal `option`
contains no `[a-d]` character and no boundary-anchored `option` — so the last
element of this capture list equals the capture of the last `matchAll`
match. -/
def scanCaptures : Option Char → List Char → List Char
  | _, [] => []
  | prev, c :: rest =>
    let tail := scanCaptures (some c) rest
    if boundaryAt prev then
      match tryMatchAt (c :: rest) with
      | some letter => letter :: tail
      | none => tail
    else tail

/-- Stage (a): the two end-anchored `endPatterns`, tried in order
(ExamPage.js lines 723–734). -/
def endPatternsMatch (cs : List Char) : Option Char :=
  match matchEndPattern1 cs with
  | some c => some c
  | none => matchEndPattern2 cs

/-- Stage (b): a match within `command.slice(-15)`
(ExamPage.js lines 737–743). -/
def last15Match (cs : List Char) : Option Char :=
  scanFirst none (cs.drop (cs.length - 15))

/-- Stage (c): the last occurrence anywhere in the string
(ExamPage.js lines 746–754). -/
def lastAnywhereMatch (cs : List Char) : Option Char :=
  (scanCaptures none cs).getLast?

/-- The full option-letter resolution of `ExamPage.handleVoiceCommand`
(lines 720–754): stage (a), then stage (b), then stage (c); the selected
letter is upper-cased (`match[1].toUpperCase()`). -/
def resolveOptionLetter (command : String) : Option Char :=
  match endPatternsMatch command.data with
  | some c => some c.toUpper
  | none =>
    match last15Match command.data with
    | some c => some c.toUpper
    | none =>
      match lastAnywhereMatch command.data with
      | some c => some c.toUpper
      | none => none

end Interp

namespace ExamUI

/-- `screenContextService.currentScreenContext`
(screenContextService.js line 536): `"HOME" | "EXAM" | null`. -/
inductive Ctx where
  | home
  | exam
  | noCtx
deriving DecidableEq, Repr

/-- Spoken messages, one constructor per `speechService.speak` call site used
by the modelled handlers. -/
inductive Msg where
  | submittingExam            -- "Submitting exam."                      (ExamPage.js 669)
  | returningToQuestion       -- "Returning to current question."        (ExamPage.js 676)
  | optionSelectedLast (letter : Char)  -- "... This is the last question. Say submit ..." (785)
  | optionSelectedNext (letter : Char)  -- "... Say next question to continue."            (790)
  | invalidOption             -- "Invalid option. Please choose A, B, C, or D." (807)
  | lastQuestionAnswerFirst   -- "You are on the last question. ..."     (835)
  | alreadyFirstQuestion      -- "You are already on the first question." (574)
  | confirmSubmitPrompt       -- "Are you sure you want to submit ..."   (901)
  | exitingExam               -- "Exiting exam."                         (919)
  | unrecognizedCommand       -- "Sorry, I did not understand ..."       (865)
  | submitSuccess             -- "Your exam has been submitted successfully." (315)
  | examScores                -- the scores summary                      (349)
  | submitFailed              -- "Failed to submit exam. Please try again." (361)
deriving DecidableEq, Repr

/-- Effects emitted by the exam-screen handlers. -/
inductive Eff where
  | stopListen                -- `await speechService.stopListening()`
  | stopSpeak                 -- `await speechService.stopSpeaking()`
  | speak (m : Msg)           -- `await speechService.speak(...)`
  | scheduleListen            -- a `setTimeout` that will call `startListening()`
  | scheduleReread            -- a `setTimeout` that will call `readCurrentQuestion()`
  | readQuestion              -- `await readCurrentQuestion()`
  | submitFire                -- `submitExam(exam.id, user.uid, answers, grading)` issued
  | navigateHome              -- `navigation?.navigate("HomePage")`
  | navigateBack              -- `navigation?.goBack()`
  | cleanup                   -- `speechService.cleanup()`
deriving DecidableEq, Repr

/-- The state of `ExamPage` visible to its voice handlers: the screen context
singleton, the two guard refs, the exam/user presence checks, the question
cursor refs, the saved answers, the submission flags and the countdown.
`submitSucceeds` is the environment's choice of whether the Firebase
`submitExam` call succeeds. -/
structure ExamSt where
  context : Ctx               -- screenContextService.getContext()
  processing : Bool           -- isProcessingCommandRef.current
  awaitingConfirmation : Bool -- isWaitingForConfirmationRef.current
  hasExam : Bool              -- exam (examRef.current) is loaded
  hasUser : Bool              -- user?.uid is present
  currentIndex : Nat          -- currentQuestionIndexRef.current
  totalQuestions : Nat        -- totalQuestionsRef.current
  currentIsMC : Bool          -- current question is multiple-choice with options
  numOptions : Nat            -- currentQuestion.options.length
  answers : List (Nat × Nat)  -- answersRef.current: question index ↦ chosen option index
  submitting : Bool
  submitCount : Nat           -- number of `submitExam(...)` invocations so far
  timeRemaining : Nat
  submitSucceeds : Bool
deriving DecidableEq, Repr

/-- `saveAnswer` (ExamPage.js lines 429–470): drop any previous entry for the
current question, append the new one. -/
def saveAnswerFn (answers : List (Nat × Nat)) (qIdx optIdx : Nat) :
    List (Nat × Nat) :=
  answers.filter (fun p => p.1 ≠ qIdx) ++ [(qIdx, optIdx)]

/-- `submitExamAnswers` (ExamPage.js lines 243–364): bail out when exam or
user is missing; otherwise set `submitting`, clear the confirmation flag,
stop listening and speaking, grade and send the submission; on success speak
the confirmation and scores, reset the context to HOME and navigate; on a
thrown error speak the failure message and clear `submitting`. -/
def submitExamAnswers (st : ExamSt) : ExamSt × List Eff :=
  if st.hasExam && st.hasUser then
    let st1 := { st with submitting := true, awaitingConfirmation := false
                         submitCount := st.submitCount + 1 }
    if st.submitSucceeds then
      ({ st1 with context := Ctx.home },
       [Eff.stopListen, Eff.stopSpeak, Eff.submitFire, Eff.speak Msg.submitSuccess,
        Eff.speak Msg.examScores, Eff.navigateHome])
    else
      ({ st1 with submitting := false },
       [Eff.stopListen, Eff.stopSpeak, Eff.submitFire, Eff.speak Msg.submitFailed])
  else (st, [])

/-- The countdown `useEffect` (ExamPage.js lines 389–406): the interval only
exists while an exam is loaded, time remains and no submission is running;
when the second counter would pass zero the interval is cleared and
`handleAutoSubmit` (= `submitExamAnswers`) runs. -/
def timerTick (st : ExamSt) : ExamSt × List Eff :=
  if st.hasExam && decide (0 < st.timeRemaining) && !st.submitting then
    if st.timeRemaining ≤ 1 then
      submitExamAnswers { st with timeRemaining := 0 }
    else ({ st with timeRemaining := st.timeRemaining - 1 }, [])
  else (st, [])

/-- `command.includes(pat)`: `pat` occurs as a contiguous substring. -/
def jsIncludes (s pat : String) : Bool := decide (pat.data <:+: s.data)

/-- `handleNextQuestion` (ExamPage.js lines 484–540). -/
def handleNextQuestion (st : ExamSt) : ExamSt × List Eff :=
  if !st.hasExam || st.totalQuestions = 0 then (st, [])
  else if st.currentIndex < st.totalQuestions - 1 then
    ({ st with currentIndex := st.currentIndex + 1 }, [Eff.scheduleReread])
  else (st, [Eff.readQuestion])

/-- `handlePreviousQuestion` (ExamPage.js lines 542–576). -/
def handlePreviousQuestion (st : ExamSt) : ExamSt × List Eff :=
  if 0 < st.currentIndex then
    ({ st with currentIndex := st.currentIndex - 1 }, [Eff.scheduleReread])
  else (st, [Eff.speak Msg.alreadyFirstQuestion])

/-- `handleSubmitCommand` (ExamPage.js lines 899–915): open the confirmation
sub-dialog and schedule listening for the yes/no answer. -/
def handleSubmitCommand (st : ExamSt) : ExamSt × List Eff :=
  ({ st with awaitingConfirmation := true },
   [Eff.speak Msg.confirmSubmitPrompt, Eff.scheduleListen])

/-- `handleExitCommand` (ExamPage.js lines 918–923). -/
def handleExitCommand (st : ExamSt) : ExamSt × List Eff :=
  ({ st with context := Ctx.home },
   [Eff.speak Msg.exitingExam, Eff.cleanup, Eff.navigateBack])

/-- The `finally` block of `handleVoiceCommand` (ExamPage.js lines 874–884):
release the re-entrancy guard and, unless a confirmation is now pending,
schedule listening again. -/
def examFinally (st : ExamSt) (effs : List Eff) : ExamSt × List Eff :=
  let st1 := { st with processing := false }
  if st1.awaitingConfirmation then (st1, effs)
  else (st1, effs ++ [Eff.scheduleListen])

/-- The `try` body of `handleVoiceCommand` for a command that is not handled
by the confirmation sub-dialog (ExamPage.js lines 702–868), composed with
the `finally` block.  `isLastQuestion` is `currentIndex === totalQuestions - 1`
on JavaScript numbers, i.e. `currentIndex + 1 = totalQuestions` (for
`totalQuestions = 0` the JavaScript comparison is against `-1` and is
false).  For a multiple-choice question the option-letter cascade runs
first; its two early returns release the guard and schedule listening
themselves, and the `finally` block then appends its own `scheduleListen`.
Otherwise the keyword commands are tried via `includes`. -/
def examProcessCommand (st : ExamSt) (command : String) : ExamSt × List Eff :=
  let pre : List Eff := [Eff.stopListen]
  let isLastQuestion : Bool := st.currentIndex + 1 = st.totalQuestions
  match (if st.currentIsMC then Interp.resolveOptionLetter command else none) with
  | some letter =>
    let optionIndex : Nat := letter.toNat - 65
    if optionIndex < st.numOptions then
      let st1 := { st with
        answers := saveAnswerFn st.answers st.currentIndex optionIndex
        processing := false }
      examFinally st1 (pre ++
        [Eff.speak (if isLastQuestion then Msg.optionSelectedLast letter
                    else Msg.optionSelectedNext letter),
         Eff.scheduleListen])
    else
      examFinally { st with processing := false }
        (pre ++ [Eff.speak Msg.invalidOption, Eff.scheduleListen])
  | none =>
    if jsIncludes command "next" then
      if isLastQuestion then
        examFinally st (pre ++ [Eff.speak Msg.lastQuestionAnswerFirst])
      else
        let (st1, e1) := handleNextQuestion st
        examFinally st1 (pre ++ e1)
    else if jsIncludes command "previous" || jsIncludes command "back" then
      let (st1, e1) := handlePreviousQuestion st
      examFinally st1 (pre ++ e1)
    else if jsIncludes command "repeat" || jsIncludes command "read"
        || jsIncludes command "again" then
      examFinally st (pre ++ [Eff.readQuestion])
    else if jsIncludes command "submit" || jsIncludes command "finish" then
      let (st1, e1) := handleSubmitCommand st
      examFinally st1 (pre ++ e1)
    else if jsIncludes command "exit" || jsIncludes command "quit"
        || jsIncludes command "leave" then
      let (st1, e1) := handleExitCommand st
      examFinally st1 (pre ++ e1)
    else
      examFinally st (pre ++ [Eff.speak Msg.unrecognizedCommand])

/-- `transcript.toLowerCase().trim()`.  `toLowerCase` is modelled by
`Char.toLower` on each character (the command grammar is ASCII) and `trim`
strips the whitespace class from both ends. -/
def jsNormalize (s : String) : String :=
  let lowered := s.data.map Char.toLower
  ⟨((lowered.dropWhile Interp.isJsSpace).reverse.dropWhile
      Interp.isJsSpace).reverse⟩

/-- `handleVoiceCommand` for the EXAM context (ExamPage.js lines 630–896).
In order: the re-entrancy guard, the transcript validity check, lower-casing
and trimming, the context gate, the confirmation sub-dialog (which only
intercepts the exact commands `yes` and `no` — anything else falls through
to normal processing), then the guarded `try`/`finally` body.  The `yes`
branch returns before the `try` block, so it leaves the re-entrancy guard
set. -/
def examHandleVoiceCommand (st : ExamSt) (transcript : String) :
    ExamSt × List Eff :=
  if st.processing then (st, [])
  else if transcript = "" then (st, [])
  else
    let command := jsNormalize transcript
    if st.context ≠ Ctx.exam then (st, [])
    else if st.awaitingConfirmation && command = "yes" then
      let st1 := { st with processing := true, awaitingConfirmation := false }
      let (st2, effs) := submitExamAnswers st1
      (st2, [Eff.stopListen, Eff.speak Msg.submittingExam] ++ effs)
    else if st.awaitingConfirmation && command = "no" then
      ({ st with processing := false, awaitingConfirmation := false },
       [Eff.stopListen, Eff.speak Msg.returningToQuestion, Eff.scheduleReread])
    else
      examProcessCommand { st with processing := true } command

end ExamUI

namespace HomeUI

/-- Spoken messages of the HOME-context handlers. -/
inductive HomeMsg where
  | noExams                -- "No exams are available at this time." / "No exams are available."
  | examList               -- "Available exams are: ..."
  | sayBeginExam           -- "Please say begin exam followed by the exam number. ..."
  | invalidExamNumber      -- "Invalid exam number. ..."
  | mustLogIn              -- "You must be logged in to start an exam."
  | cannotAttempt          -- eligibility message
  | examSelected           -- "<title> selected. Starting exam."
  | selectFailed           -- "Failed to start the exam. Please try again."
  | repeatLast             -- re-speak `getLastSpokenMessage()`
  | welcomeHome            -- the fixed welcome fallback
  | exitingApp             -- "Exiting application."
  | unrecognizedCommand    -- "Sorry, I did not understand that command. ..."
deriving DecidableEq, Repr

/-- Effects emitted by the HOME-context handlers. -/
inductive HomeEff where
  | stopListen
  | speak (m : HomeMsg)
  | scheduleListen
  | setContextExam           -- `screenContextService.setContext("EXAM")`
  | navigateToExam (idx : Nat)
  | cleanup
deriving DecidableEq, Repr

/-- The `HomePage` state visible to its voice handler. -/
structure HomeSt where
  context : ExamUI.Ctx        -- screenContextService.getContext()
  processing : Bool           -- isProcessingCommandRef.current
  examCount : Nat             -- examsRef.current.length
  hasUser : Bool              -- user?.uid present
  hasLastSpoken : Bool        -- speechService.getLastSpokenMessage() non-null
  canAttemptSelected : Bool   -- canAttemptExam(...) reports eligibility
deriving DecidableEq, Repr

/-- Decimal value of a digit run (`parseInt(match[1], 10)`). -/
def parseDigits (ds : List Char) : Nat :=
  ds.foldl (fun n c => n * 10 + (c.toNat - 48)) 0

/-- Leftmost occurrence of the literal `lit` followed by at least one digit;
captures the maximal digit run after it (the JavaScript patterns
`/select exam number (\d+)/` and `/begin exam (\d+)/`, whose literals end in
a space). -/
def digitsAfterLit (lit : List Char) : List Char → Option Nat
  | [] => none
  | c :: rest =>
    if (c :: rest).take lit.length = lit then
      let ds := ((c :: rest).drop lit.length).takeWhile Char.isDigit
      if ds.isEmpty then digitsAfterLit lit rest
      else some (parseDigits ds)
    else digitsAfterLit lit rest

/-- Number extraction of HomePage.js lines 258–261: try
`select exam number (\d+)`, then `begin exam (\d+)`. -/
def extractExamNumber (cs : List Char) : Option Nat :=
  match digitsAfterLit "select exam number ".data cs with
  | some n => some n
  | none => digitsAfterLit "begin exam ".data cs

/-- `handleListExams` (HomePage.js lines 299–315). -/
def handleListExams (st : HomeSt) : HomeSt × List HomeEff :=
  if st.examCount = 0 then (st, [HomeEff.speak HomeMsg.noExams])
  else (st, [HomeEff.speak HomeMsg.examList])

/-- `handleSelectExam` (HomePage.js lines 318–371): empty list, range check on
`examNumber - 1`, login check, eligibility check, then announce, switch the
context to EXAM and navigate. -/
def handleSelectExam (st : HomeSt) (examNumber : Nat) : HomeSt × List HomeEff :=
  if st.examCount = 0 then (st, [HomeEff.speak HomeMsg.noExams])
  else if examNumber = 0 || st.examCount < examNumber then
    (st, [HomeEff.speak HomeMsg.invalidExamNumber])
  else if !st.hasUser then (st, [HomeEff.speak HomeMsg.mustLogIn])
  else if !st.canAttemptSelected then (st, [HomeEff.speak HomeMsg.cannotAttempt])
  else
    ({ st with context := ExamUI.Ctx.exam },
     [HomeEff.speak HomeMsg.examSelected, HomeEff.setContextExam,
      HomeEff.navigateToExam (examNumber - 1)])

/-- `handleVoiceCommand` for the HOME context (HomePage.js lines 225–296):
re-entrancy guard, transcript validity (here the blank transcript is also
rejected), lower-casing and trimming, the context gate, then the keyword
dispatch inside `try`/`finally`; the `finally` releases the guard and always
schedules listening again. -/
def homeHandleVoiceCommand (st : HomeSt) (transcript : String) :
    HomeSt × List HomeEff :=
  if st.processing then (st, [])
  else if (ExamUI.jsNormalize transcript) = "" then (st, [])
  else
    let command := ExamUI.jsNormalize transcript
    if st.context ≠ ExamUI.Ctx.home then (st, [])
    else
      let (st1, effs) :=
        if ExamUI.jsIncludes command "list exams" || command = "list exam" then
          handleListExams st
        else if ExamUI.jsIncludes command "select exam number"
            || ExamUI.jsIncludes command "begin exam" then
          match extractExamNumber command.data with
          | some n => handleSelectExam st n
          | none => (st, [HomeEff.speak HomeMsg.sayBeginExam])
        else if command = "repeat" then
          (st, [HomeEff.speak (if st.hasLastSpoken then HomeMsg.repeatLast
                               else HomeMsg.welcomeHome)])
        else if command = "exit" then
          (st, [HomeEff.speak HomeMsg.exitingApp, HomeEff.cleanup])
        else (st, [HomeEff.speak HomeMsg.unrecognizedCommand])
      ({ st1 with processing := false },
       [HomeEff.stopListen] ++ effs ++ [HomeEff.scheduleListen])

end HomeUI

namespace SpeechSvc

/-- The interleaving that violates mutual exclusion: `speak 1` from idle;
`startListening()` while speaking (it stops the TTS and parks its
continuation for the 800 ms delay); `speak 2` issued during that delay (both
flags are false, so it starts the TTS engine at once); the 800 ms delay
elapses and `startListening`'s parked continuation runs — it re-checks
nothing and starts recognition. -/
def overlapSchedule : List Act :=
  [Act.callSpeak 1, Act.callStartListening false, Act.callSpeak 2,
   Act.runPending 0 false]

/-- C1: after the schedule above the service is observed with `isSpeaking`
and `isListening` simultaneously true — and the overlap is real at the
engine level as well: utterance 2 is still with the TTS engine while
recognition is running. -/
theorem c1_speak_listen_overlap :
    (runActs readyState overlapSchedule).isSpeaking = true ∧
    (runActs readyState overlapSchedule).isListening = true ∧
    (runActs readyState overlapSchedule).ttsCurrent = some 2 ∧
    (runActs readyState overlapSchedule).sttRunning = true := by
  decide

/-- C2, counterexample: `startListening()` from idle, then the silence timer
fires with no recognition event.  Exactly one `silence_timeout` error is
delivered (a second firing adds nothing), but `isListening` is still `true`:
the timeout callback does not return the turn state to idle. -/
theorem c2_silence_timeout_not_idle :
    ((runActs readyState
        [Act.callStartListening false, Act.silenceFire, Act.silenceFire]).trace.count
      (Obs.errorCb ErrKind.silence_timeout) = 1) ∧
    (runActs readyState
        [Act.callStartListening false, Act.silenceFire, Act.silenceFire]).isListening
      = true := by
  decide

/-- C2, amended: when the silence timer fires while listening with an error
callback registered, exactly one `silence_timeout` error is appended to the
trace and the timer is disarmed — so a second firing is a no-op — while
`isListening` (and every other field) is left unchanged. -/
theorem c2_silence_timeout_once (s : SpeechState)
    (h1 : s.silenceArmed = true) (h2 : s.isListening = true)
    (h3 : s.hasErrorCb = true) :
    step s Act.silenceFire =
      { s with silenceArmed := false
               trace := s.trace ++ [Obs.errorCb ErrKind.silence_timeout] } ∧
    (step s Act.silenceFire).isListening = true ∧
    step (step s Act.silenceFire) Act.silenceFire = step s Act.silenceFire := by
  refine ⟨?_, ?_, ?_⟩ <;> simp [step, h1, h2, h3]

/-- Witness for `c2_silence_timeout_once` at the state reached by
`startListening()` from `readyState`. -/
theorem c2_silence_timeout_once_witness :
    step (runActs readyState [Act.callStartListening false]) Act.silenceFire =
      { runActs readyState [Act.callStartListening false] with
          silenceArmed := false
          trace := (runActs readyState [Act.callStartListening false]).trace
            ++ [Obs.errorCb ErrKind.silence_timeout] } ∧
    (step (runActs readyState [Act.callStartListening false])
        Act.silenceFire).isListening = true ∧
    step (step (runActs readyState [Act.callStartListening false]) Act.silenceFire)
        Act.silenceFire
      = step (runActs readyState [Act.callStartListening false]) Act.silenceFire :=
  c2_silence_timeout_once (runActs readyState [Act.callStartListening false])
    (by decide) (by decide) (by decide)

end SpeechSvc

namespace SpeechSvc

/-- A canonical mid-utterance state: the service is speaking `x`, the queue
holds `q`, no listener is active, no continuation is parked, the screen's
callbacks are registered, and `tr` has been observed so far. -/
def midState (x : Nat) (q : List Nat) (tr : List Obs) : SpeechState :=
  { isSpeaking := true, isListening := false, speechQueue := q
    silenceArmed := false, currentRecognition := false, ttsCurrent := some x
    sttRunning := false, stopPending := false
    hasEndCb := true, hasResultCb := true, hasErrorCb := true
    pending := [], trace := tr }

/-- `n` rounds of natural completion: the engine reports the current
utterance done, then the 300 ms drain timer fires. -/
def drainActs : Nat → List Act
  | 0 => []
  | n + 1 => Act.ttsDone :: Act.runPending 0 false :: drainActs n

/-- The observations produced by draining queue `q` after utterance `x`
completes naturally: each queued text is handed to the engine only after the
previous utterance's done event, and the empty queue ends with the
speech-end notification and the resolution of the original promise. -/
def spokenTrace (x : Nat) : List Nat → List Obs
  | [] => [Obs.ttsDoneEv x, Obs.speechEndCb, Obs.resolveSpeak]
  | t :: ts => Obs.ttsDoneEv x :: Obs.engineSpeak t :: spokenTrace t ts

/-- One completion round moves the canonical state along the queue. -/
theorem drain_round (x t : Nat) (ts : List Nat) (tr : List Obs) (ht : t ≠ 0) :
    step (step (midState x (t :: ts) tr) Act.ttsDone) (Act.runPending 0 false) =
      midState t ts (tr ++ [Obs.ttsDoneEv x, Obs.engineSpeak t]) := by
  simp [step, midState, runTask, drainStep, speakEntry, beginSpeak, ht]

/-- The final completion round on an empty queue. -/
theorem drain_last (x : Nat) (tr : List Obs) :
    step (step (midState x [] tr) Act.ttsDone) (Act.runPending 0 false) =
      { readyState with trace := tr ++ spokenTrace x [] } := by
  simp [step, midState, runTask, drainStep, spokenTrace, readyState, initState]

/-- Draining the whole queue by natural completions speaks exactly the queue,
in order. -/
theorem drain_run (q : List Nat) : ∀ (x : Nat) (tr : List Obs),
    (∀ t ∈ q, t ≠ 0) →
    runActs (midState x q tr) (drainActs (q.length + 1)) =
      { readyState with trace := tr ++ spokenTrace x q } := by
  induction q with
  | nil =>
    intro x tr _
    show runActs (midState x [] tr) [Act.ttsDone, Act.runPending 0 false] = _
    simp only [runActs, List.foldl]
    exact drain_last x tr
  | cons t ts ih =>
    intro x tr h
    have ht : t ≠ 0 := h t (List.mem_cons_self t ts)
    have hts : ∀ u ∈ ts, u ≠ 0 := fun u hu => h u (List.mem_cons_of_mem t hu)
    calc runActs (midState x (t :: ts) tr) (drainActs ((t :: ts).length + 1))
        = runActs (step (step (midState x (t :: ts) tr) Act.ttsDone)
            (Act.runPending 0 false)) (drainActs (ts.length + 1)) := rfl
      _ = runActs (midState t ts (tr ++ [Obs.ttsDoneEv x, Obs.engineSpeak t]))
            (drainActs (ts.length + 1)) := by rw [drain_round x t ts tr ht]
      _ = { readyState with
              trace := (tr ++ [Obs.ttsDoneEv x, Obs.engineSpeak t])
                ++ spokenTrace t ts } :=
          ih t (tr ++ [Obs.ttsDoneEv x, Obs.engineSpeak t]) hts
      _ = { readyState with trace := tr ++ spokenTrace x (t :: ts) } := by
          simp [spokenTrace]

/-- C5: requests issued while the service is speaking are appended at the
tail of the FIFO queue, and when the current utterance and its successors
complete naturally the queued texts are handed to the engine exactly in
queue order — each `engineSpeak` strictly after the previous utterance's
`ttsDoneEv`, as spelled out by `spokenTrace`. -/
theorem c5_speech_queue_fifo :
    (∀ (s : SpeechState) (t : Nat), t ≠ 0 → s.isSpeaking = true →
      (speakEntry s t).1.speechQueue = s.speechQueue ++ [t]) ∧
    (∀ (q : List Nat) (x : Nat) (tr : List Obs), (∀ t ∈ q, t ≠ 0) →
      runActs (midState x q tr) (drainActs (q.length + 1)) =
        { readyState with trace := tr ++ spokenTrace x q }) := by
  constructor
  · intro s t ht hs
    simp [speakEntry, ht, hs]
  · exact fun q x tr h => drain_run q x tr h

/-- Witness for `c5_speech_queue_fifo`: with the service speaking `3` and the
queue `[5, 7]` (both texts queued while speaking, `5` before `7`), a further
`speak 9` lands at the tail, and the natural-completion run speaks `5` then
`7` in that order. -/
theorem c5_speech_queue_fifo_witness :
    (speakEntry (midState 3 [5, 7] []) 9).1.speechQueue = [5, 7, 9] ∧
    runActs (midState 3 [5, 7] []) (drainActs 3) =
      { readyState with
          trace := [Obs.ttsDoneEv 3, Obs.engineSpeak 5, Obs.ttsDoneEv 5,
                    Obs.engineSpeak 7, Obs.ttsDoneEv 7, Obs.speechEndCb,
                    Obs.resolveSpeak] } :=
  ⟨c5_speech_queue_fifo.1 (midState 3 [5, 7] []) 9 (by decide) (by decide),
   c5_speech_queue_fifo.2 [5, 7] 3 [] (by decide)⟩

end SpeechSvc

namespace SpeechSvc

/-- The state after `speak 1` from `readyState`: the service is speaking. -/
def speakingState : SpeechState := runActs readyState [Act.callSpeak 1]

/-- C6, counterexample: a `speak 2` issued while the service is speaking has
its promise already resolved when the call returns, yet the text has not
been handed to the engine — the completion signal resolves *before* the text
is spoken, not after. -/
theorem c6_queued_speak_resolves_early :
    speakingState.isSpeaking = true ∧
    (speakEntry speakingState 2).2 = SpeakRet.resolvedNow ∧
    Obs.engineSpeak 2 ∉ (speakEntry speakingState 2).1.trace := by
  decide

/-- C6, amended: `speak(text)` called while `isSpeaking` only appends the
request to the FIFO queue and returns at once — the promise of *this* call
is resolved immediately (with `undefined`); completion of the queued text is
signalled through the original in-progress call's promise, which the drain
chain resolves only after the queue empties (`drainStep`). -/
theorem c6_speak_while_speaking_returns_at_once (s : SpeechState) (t : Nat)
    (ht : t ≠ 0) (hs : s.isSpeaking = true) :
    speakEntry s t =
      ({ s with speechQueue := s.speechQueue ++ [t] }, SpeakRet.resolvedNow) := by
  simp [speakEntry, ht, hs]

/-- Witness for `c6_speak_while_speaking_returns_at_once`. -/
theorem c6_speak_while_speaking_returns_at_once_witness :
    speakEntry speakingState 2 =
      ({ speakingState with speechQueue := speakingState.speechQueue ++ [2] },
       SpeakRet.resolvedNow) :=
  c6_speak_while_speaking_returns_at_once speakingState 2 (by decide) (by decide)

/-- C8: engine failures release the turn lock and surface the error, and no
public entry point throws — every modelled entry point is a total function,
and on each failure path the corresponding flag is cleared before control
returns.  Part 1: a TTS `onError` clears `isSpeaking`, notifies the
speech-end callback and rejects the promise (an error value for the awaiting
caller).  Part 2: a recognition `error` event clears the silence timer and
`isListening` and reports through the error callback.  Part 3: when
`ExpoSpeechRecognitionModule.start` throws inside `startListening()`, the
nested catch blocks clear `isListening`, report the failure through the
error callback (twice, in fact), and the outermost catch swallows the
exception so the method returns normally. -/
theorem c8_errors_release_lock :
    (∀ (s : SpeechState) (t : Nat), s.ttsCurrent = some t →
      step s Act.ttsError =
        { s with isSpeaking := false, ttsCurrent := none
                 trace := s.trace
                   ++ (if s.hasEndCb then [Obs.speechEndCb] else [])
                   ++ [Obs.rejectSpeak] }) ∧
    (∀ s : SpeechState, s.currentRecognition = true →
      step s Act.recogError =
        { s with silenceArmed := false, isListening := false
                 trace := s.trace
                   ++ (if s.hasErrorCb then [Obs.errorCb ErrKind.recognition_error]
                       else []) }) ∧
    (∀ s : SpeechState, s.isListening = false → s.isSpeaking = false →
      s.currentRecognition = false →
      (startListeningEntry s true).isListening = false ∧
      (startListeningEntry s true).trace = s.trace
        ++ (if s.hasErrorCb then [Obs.errorCb ErrKind.unknown] else [])
        ++ (if s.hasErrorCb then [Obs.errorCb ErrKind.unknown] else [])) := by
  refine ⟨?_, ?_, ?_⟩
  · intro s t hts
    simp [step, hts]
  · intro s h
    simp [step, h]
  · intro s h1 h2 h3
    constructor <;> simp [startListeningEntry, listenBody, h1, h2, h3]

/-- Witness for `c8_errors_release_lock`: the TTS-error part at the speaking
state, the recognition-error part at the listening state, and the
start-failure part at `readyState`. -/
theorem c8_errors_release_lock_witness :
    step speakingState Act.ttsError =
      { speakingState with
          isSpeaking := false, ttsCurrent := none,
          trace := speakingState.trace
            ++ (if speakingState.hasEndCb then [Obs.speechEndCb] else [])
            ++ [Obs.rejectSpeak] } ∧
    step (runActs readyState [Act.callStartListening false]) Act.recogError =
      { runActs readyState [Act.callStartListening false] with
          silenceArmed := false, isListening := false,
          trace := (runActs readyState [Act.callStartListening false]).trace
            ++ (if (runActs readyState [Act.callStartListening false]).hasErrorCb
                then [Obs.errorCb ErrKind.recognition_error] else []) } ∧
    (startListeningEntry readyState true).isListening = false ∧
    (startListeningEntry readyState true).trace = readyState.trace
      ++ (if readyState.hasErrorCb then [Obs.errorCb ErrKind.unknown] else [])
      ++ (if readyState.hasErrorCb then [Obs.errorCb ErrKind.unknown] else []) :=
  ⟨c8_errors_release_lock.1 speakingState 1 (by decide),
   c8_errors_release_lock.2.1 (runActs readyState [Act.callStartListening false])
     (by decide),
   (c8_errors_release_lock.2.2 readyState (by decide) (by decide) (by decide)).1,
   (c8_errors_release_lock.2.2 readyState (by decide) (by decide) (by decide)).2⟩

/-- C10, counterexample: with the service speaking and `2` queued, the queued
request's completion signal has *already resolved* at enqueue time — so
"its completion signal never resolves" is false — even though
`stopSpeaking()` then discards the queue and `2` is never handed to the
engine. -/
theorem c10_queued_signal_already_resolved :
    (speakEntry speakingState 2).2 = SpeakRet.resolvedNow ∧
    (stopSpeakingFn (speakEntry speakingState 2).1).speechQueue = [] ∧
    Obs.engineSpeak 2 ∉ (stopSpeakingFn (speakEntry speakingState 2).1).trace := by
  decide

/-- C10, amended: `stopSpeaking()` while speaking stops the engine, clears
`isSpeaking` and discards the entire FIFO queue, so every queued request is
dropped unspoken; `startListening()` invoked while speaking (and not
listening) performs exactly that same discard before parking its 800 ms
continuation.  (The queued calls' own promises had already resolved at
enqueue time — `speakEntry` returns `resolvedNow` while speaking — and the
in-progress call's promise is later resolved by the engine's `onStopped`.) -/
theorem c10_stop_speaking_discards_queue (s : SpeechState) (b : Bool)
    (hs : s.isSpeaking = true) (hl : s.isListening = false) :
    stopSpeakingFn s =
      { s with ttsCurrent := none, stopPending := true, isSpeaking := false
               speechQueue := [], trace := s.trace ++ [Obs.engineStopTTS] } ∧
    startListeningEntry s b =
      { s with ttsCurrent := none, stopPending := true, isSpeaking := false
               speechQueue := [], trace := s.trace ++ [Obs.engineStopTTS]
               pending := s.pending ++ [PendingTask.listenAfterDelay] } := by
  constructor
  · simp [stopSpeakingFn, hs]
  · simp [startListeningEntry, stopSpeakingFn, hs, hl]

/-- Witness for `c10_stop_speaking_discards_queue` at the speaking state with
`2` queued. -/
theorem c10_stop_speaking_discards_queue_witness :
    stopSpeakingFn (speakEntry speakingState 2).1 =
      { (speakEntry speakingState 2).1 with
          ttsCurrent := none, stopPending := true, isSpeaking := false
          speechQueue := []
          trace := (speakEntry speakingState 2).1.trace ++ [Obs.engineStopTTS] } ∧
    startListeningEntry (speakEntry speakingState 2).1 false =
      { (speakEntry speakingState 2).1 with
          ttsCurrent := none, stopPending := true, isSpeaking := false
          speechQueue := []
          trace := (speakEntry speakingState 2).1.trace ++ [Obs.engineStopTTS]
          pending := (speakEntry speakingState 2).1.pending
            ++ [PendingTask.listenAfterDelay] } :=
  c10_stop_speaking_discards_queue (speakEntry speakingState 2).1 false
    (by decide) (by decide)

end SpeechSvc

namespace Interp

/-- C4: the option-letter resolution is a strict three-stage priority —
(a) the end-anchored command patterns, then (b) a match within the final 15
characters, then (c) the last occurrence anywhere — and the spec's tie-break
examples hold: `"option a select option d"` resolves to `D` (end-anchored
priority beats the earlier `option a`) and the bare transcript `"d"`
resolves to `D`. -/
theorem c4_option_letter_priority :
    resolveOptionLetter "option a select option d" = some 'D' ∧
    resolveOptionLetter "d" = some 'D' ∧
    (∀ (cmd : String) (c : Char), endPatternsMatch cmd.data = some c →
      resolveOptionLetter cmd = some c.toUpper) ∧
    (∀ (cmd : String) (c : Char), endPatternsMatch cmd.data = none →
      last15Match cmd.data = some c →
      resolveOptionLetter cmd = some c.toUpper) ∧
    (∀ (cmd : String) (c : Char), endPatternsMatch cmd.data = none →
      last15Match cmd.data = none → lastAnywhereMatch cmd.data = some c →
      resolveOptionLetter cmd = some c.toUpper) := by
  refine ⟨by decide, by decide, ?_, ?_, ?_⟩
  · intro cmd c h
    simp [resolveOptionLetter, h]
  · intro cmd c h1 h2
    simp [resolveOptionLetter, h1, h2]
  · intro cmd c h1 h2 h3
    simp [resolveOptionLetter, h1, h2, h3]

/-- Witness for `c4_option_letter_priority`: one concrete transcript per
stage — `"select b"` matches end-anchored, `"option b is wrong here"` only
matches inside the final 15 characters, and `"b xxxxxxxxxxxxxxxxxxxx"` only
matches via the last-occurrence fallback. -/
theorem c4_option_letter_priority_witness :
    resolveOptionLetter "select b" = some 'b'.toUpper ∧
    resolveOptionLetter "option b is wrong here" = some 'b'.toUpper ∧
    resolveOptionLetter "b xxxxxxxxxxxxxxxxxxxx" = some 'b'.toUpper :=
  ⟨c4_option_letter_priority.2.2.1 "select b" 'b' (by decide),
   c4_option_letter_priority.2.2.2.1 "option b is wrong here" 'b'
     (by decide) (by decide),
   c4_option_letter_priority.2.2.2.2 "b xxxxxxxxxxxxxxxxxxxx" 'b'
     (by decide) (by decide) (by decide)⟩

end Interp

namespace ExamUI

/-- A state with the submit-confirmation sub-dialog open on the EXAM screen:
question 1 of 3 (a written question), nothing submitted yet. -/
def c3State : ExamSt :=
  { context := Ctx.exam, processing := false, awaitingConfirmation := true
    hasExam := true, hasUser := true, currentIndex := 0, totalQuestions := 3
    currentIsMC := false, numOptions := 0, answers := [], submitting := false
    submitCount := 0, timeRemaining := 100, submitSucceeds := true }

/-- C3, counterexample: with the confirmation sub-dialog open, the transcript
`"next"` is *not* ignored — the confirmation block only intercepts `yes` and
`no`, everything else falls through to normal command processing, which here
navigates to the next question and emits effects. -/
theorem c3_confirmation_next_not_ignored :
    (examHandleVoiceCommand c3State "next").1.currentIndex = 1 ∧
    (examHandleVoiceCommand c3State "next").2 ≠ [] := by
  decide

/-- C3, amended: while the confirmation sub-dialog is open, `yes` (after
lower-casing and trimming) performs the terminal submission exactly once and
clears the awaiting flag, `no` clears the flag and schedules a re-read of
the current question, and any other transcript falls through to the normal
command processing of the screen (it is *not* ignored). -/
theorem c3_confirmation_dialog (st : ExamSt) (t : String)
    (hp : st.processing = false) (hc : st.context = Ctx.exam)
    (ha : st.awaitingConfirmation = true) (ht : t ≠ "")
    (he : st.hasExam = true) (hu : st.hasUser = true) :
    (jsNormalize t = "yes" →
      (examHandleVoiceCommand st t).1.awaitingConfirmation = false ∧
      (examHandleVoiceCommand st t).1.submitCount = st.submitCount + 1 ∧
      (examHandleVoiceCommand st t).2.count Eff.submitFire = 1) ∧
    (jsNormalize t = "no" →
      examHandleVoiceCommand st t =
        ({ st with processing := false, awaitingConfirmation := false },
         [Eff.stopListen, Eff.speak Msg.returningToQuestion,
          Eff.scheduleReread])) ∧
    (jsNormalize t ≠ "yes" → jsNormalize t ≠ "no" →
      examHandleVoiceCommand st t =
        examProcessCommand { st with processing := true } (jsNormalize t)) := by
  refine ⟨?_, ?_, ?_⟩
  · intro hy
    cases hss : st.submitSucceeds <;>
      simp [examHandleVoiceCommand, submitExamAnswers, hp, hc, ha, ht, hy,
            he, hu, hss]
  · intro hn
    have hy : jsNormalize t ≠ "yes" := by rw [hn]; decide
    simp [examHandleVoiceCommand, hp, hc, ha, ht, hn, hy]
  · intro hy hn
    simp [examHandleVoiceCommand, hp, hc, ha, ht, hy, hn]

/-- Witness for `c3_confirmation_dialog` at `c3State` with the transcripts
`"yes"`, `"no"` and `"next"`. -/
theorem c3_confirmation_dialog_witness :
    ((examHandleVoiceCommand c3State "yes").1.awaitingConfirmation = false ∧
      (examHandleVoiceCommand c3State "yes").1.submitCount
        = c3State.submitCount + 1 ∧
      (examHandleVoiceCommand c3State "yes").2.count Eff.submitFire = 1) ∧
    (examHandleVoiceCommand c3State "no" =
      ({ c3State with processing := false, awaitingConfirmation := false },
       [Eff.stopListen, Eff.speak Msg.returningToQuestion,
        Eff.scheduleReread])) ∧
    (examHandleVoiceCommand c3State "next" =
      examProcessCommand { c3State with processing := true }
        (jsNormalize "next")) :=
  ⟨(c3_confirmation_dialog c3State "yes" (by decide) (by decide) (by decide)
      (by decide) (by decide) (by decide)).1 (by decide),
   (c3_confirmation_dialog c3State "no" (by decide) (by decide) (by decide)
      (by decide) (by decide) (by decide)).2.1 (by decide),
   (c3_confirmation_dialog c3State "next" (by decide) (by decide) (by decide)
      (by decide) (by decide) (by decide)).2.2 (by decide) (by decide)⟩

end ExamUI

namespace ExamUI

/-- C7: a transcript delivered while the current screen context differs from
the handler's registered context is dropped silently — neither the EXAM nor
the HOME handler changes any state or emits any effect. -/
theorem c7_context_gate (stE : ExamSt) (stH : HomeUI.HomeSt) (t u : String)
    (hE : stE.context ≠ Ctx.exam) (hH : stH.context ≠ Ctx.home) :
    examHandleVoiceCommand stE t = (stE, []) ∧
    HomeUI.homeHandleVoiceCommand stH u = (stH, []) := by
  constructor
  · by_cases hp : stE.processing
    · simp [examHandleVoiceCommand, hp]
    · by_cases ht : t = ""
      · simp [examHandleVoiceCommand, hp, ht]
      · simp [examHandleVoiceCommand, hp, ht, hE]
  · by_cases hp : stH.processing
    · simp [HomeUI.homeHandleVoiceCommand, hp]
    · by_cases hu : jsNormalize u = ""
      · simp [HomeUI.homeHandleVoiceCommand, hp, hu]
      · simp [HomeUI.homeHandleVoiceCommand, hp, hu, hH]

/-- Witness for `c7_context_gate`: the exam handler while the context is HOME
and the home handler while the context is EXAM, both with live commands. -/
theorem c7_context_gate_witness :
    examHandleVoiceCommand { c3State with context := Ctx.home } "next" =
      ({ c3State with context := Ctx.home }, []) ∧
    HomeUI.homeHandleVoiceCommand
        { context := Ctx.exam, processing := false, examCount := 2
          hasUser := true, hasLastSpoken := true, canAttemptSelected := true }
        "list exams" =
      ({ context := Ctx.exam, processing := false, examCount := 2
         hasUser := true, hasLastSpoken := true, canAttemptSelected := true },
       []) :=
  c7_context_gate { c3State with context := Ctx.home }
    { context := Ctx.exam, processing := false, examCount := 2
      hasUser := true, hasLastSpoken := true, canAttemptSelected := true }
    "next" "list exams" (by decide) (by decide)

end ExamUI

namespace ExamUI

/-- C9: when the countdown reaches zero while the submit-confirmation dialog
is open, `submitExamAnswers` runs directly: the awaiting flag is cleared and
the submission fires exactly once; a subsequent `yes` from the still-open
dialog cannot run it again — with the flag cleared the transcript falls
through to normal processing (or is dropped after the context change on a
successful submission) and fires no further submission. -/
theorem c9_autosubmit_preempts_confirmation (st : ExamSt)
    (he : st.hasExam = true) (hu : st.hasUser = true)
    (hs : st.submitting = false) (htime : st.timeRemaining = 1)
    (ha : st.awaitingConfirmation = true) (hp : st.processing = false)
    (hc : st.context = Ctx.exam) :
    (timerTick st).1.awaitingConfirmation = false ∧
    (timerTick st).1.submitCount = st.submitCount + 1 ∧
    (timerTick st).2.count Eff.submitFire = 1 ∧
    (examHandleVoiceCommand (timerTick st).1 "yes").1.submitCount
      = (timerTick st).1.submitCount ∧
    (examHandleVoiceCommand (timerTick st).1 "yes").2.count Eff.submitFire
      = 0 := by
  have hnorm : jsNormalize "yes" = "yes" := by decide
  have hres : Interp.resolveOptionLetter "yes" = none := by decide
  have hne : ("yes" : String) ≠ "" := by decide
  have h1 : jsIncludes "yes" "next" = false := by decide
  have h2 : jsIncludes "yes" "previous" = false := by decide
  have h3 : jsIncludes "yes" "back" = false := by decide
  have h4 : jsIncludes "yes" "repeat" = false := by decide
  have h5 : jsIncludes "yes" "read" = false := by decide
  have h6 : jsIncludes "yes" "again" = false := by decide
  have h7 : jsIncludes "yes" "submit" = false := by decide
  have h8 : jsIncludes "yes" "finish" = false := by decide
  have h9 : jsIncludes "yes" "exit" = false := by decide
  have h10 : jsIncludes "yes" "quit" = false := by decide
  have h11 : jsIncludes "yes" "leave" = false := by decide
  cases hss : st.submitSucceeds <;> cases hmc : st.currentIsMC <;>
    simp [timerTick, submitExamAnswers, examHandleVoiceCommand,
          examProcessCommand, examFinally, he, hu, hs, htime, ha, hp, hc,
          hss, hmc, hnorm, hres, hne, h1, h2, h3, h4, h5, h6, h7, h8, h9,
          h10, h11, List.count_cons, List.count_nil]

/-- Witness for `c9_autosubmit_preempts_confirmation` at `c3State` with one
second left on the clock. -/
theorem c9_autosubmit_preempts_confirmation_witness :
    (timerTick { c3State with timeRemaining := 1 }).1.awaitingConfirmation
      = false ∧
    (timerTick { c3State with timeRemaining := 1 }).1.submitCount
      = ({ c3State with timeRemaining := 1 } : ExamSt).submitCount + 1 ∧
    (timerTick { c3State with timeRemaining := 1 }).2.count Eff.submitFire
      = 1 ∧
    (examHandleVoiceCommand
        (timerTick { c3State with timeRemaining := 1 }).1 "yes").1.submitCount
      = (timerTick { c3State with timeRemaining := 1 }).1.submitCount ∧
    (examHandleVoiceCommand
        (timerTick { c3State with timeRemaining := 1 }).1 "yes").2.count
        Eff.submitFire
      = 0 :=
  c9_autosubmit_preempts_confirmation { c3State with timeRemaining := 1 }
    (by decide) (by decide) (by decide) (by decide) (by decide) (by decide)
    (by decide)

end ExamUI
